import Mathlib

/-!
Shallow embedding of `src/arkham.py` (a buy/sell limit-order bot driving a web
trading interface) and verification of its specified properties.

Modelling conventions:
- Monetary quantities and random draws are rationals (`ℚ`); Python `round(x, n)`
  is modelled as decimal round-half-even (`rhe`, banker's rounding).
- Page reads are oracle inputs: an element query either yields its (stripped)
  text or is `unavailable` (Playwright raises a timeout).  The order-slot query
  additionally distinguishes a navigation error (`navError`), which
  `safe_query_selector` collapses to `none`, from a plain absence.
- Interface mutations (tab clicks, input fills, submit, cancel clicks, reload)
  are recorded in an explicit command trace.
- Code that lets an exception escape is modelled with `Except Unit`.
- The module-global `cancellation_failures` counter is threaded explicitly.
-/

set_option allowUnsafeReducibility true in
attribute [semireducible] Rat.mul Rat.add Rat.sub Rat.inv

namespace Arkham

/-- Python `str.strip()`: drop whitespace from both ends. -/
def pyStrip (s : String) : String :=
  String.mk (((s.toList.dropWhile Char.isWhitespace).reverse.dropWhile Char.isWhitespace).reverse)

/-- Python `str.upper()` (ASCII letters, as used for asset symbols). -/
def upperStr (s : String) : String :=
  String.mk (s.toList.map Char.toUpper)

/-- Helper for substring containment (Python `needle in hay`). -/
def subListAt (n : List Char) : List Char → Bool
  | [] => n.isEmpty
  | c :: t => n.isPrefixOf (c :: t) || subListAt n t

/-- Python `needle in hay` on strings. -/
def strHasSub (needle hay : String) : Bool :=
  subListAt needle.toList hay.toList

/-- Numeric value of a digit string (most significant first). -/
def digitsVal (l : List Char) : ℕ :=
  l.foldl (fun n c => 10 * n + (c.toNat - 48)) 0

/-- Split a character list at every dot. -/
def splitDotAux : List Char → List Char → List (List Char)
  | [], acc => [acc.reverse]
  | c :: t, acc => if c = '.' then acc.reverse :: splitDotAux t [] else splitDotAux t (c :: acc)

/-- Python `float(s)` on an unsigned decimal literal (digits with at most one
dot, at least one digit).  `none` models `ValueError`.  Exponent, `inf`/`nan`
and underscore forms of the Python grammar are omitted: the price and balance
texts this program reads never contain them. -/
def floatOfClean (s : String) : Option ℚ :=
  match splitDotAux s.toList [] with
  | [a] =>
    if !a.isEmpty && a.all Char.isDigit then some (digitsVal a) else none
  | [a, b] =>
    if (!a.isEmpty || !b.isEmpty) && a.all Char.isDigit && b.all Char.isDigit then
      some ((digitsVal a : ℚ) + (digitsVal b : ℚ) / (10 : ℚ) ^ b.length)
    else none
  | _ => none

/-- Python `float(s)` with an optional sign (same restriction as `floatOfClean`). -/
def pyFloat (s : String) : Option ℚ :=
  match s.toList with
  | '-' :: rest => (floatOfClean (String.mk rest)).map fun v => -v
  | '+' :: rest => floatOfClean (String.mk rest)
  | _ => floatOfClean s

/-- Source `re.sub(r'[^\d\.]', '', balance_str)`: keep only digits and dots. -/
def stripNonNumeric (s : String) : String :=
  String.mk (s.toList.filter fun c => c.isDigit || c == '.')

/-- Source `parse_balance`: strip non-numeric characters, convert to float,
and return `0.0` on any parse error (the `except` branch). -/
def parse_balance (s : String) : ℚ :=
  (floatOfClean (stripNonNumeric s)).getD 0

/-- Round a rational to the nearest integer, ties to even (Python / IEEE
`round` on floats, idealised to exact decimal arithmetic). -/
def rhe (q : ℚ) : ℤ :=
  if q - ⌊q⌋ < 1/2 then ⌊q⌋
  else if 1/2 < q - ⌊q⌋ then ⌊q⌋ + 1
  else if ⌊q⌋ % 2 = 0 then ⌊q⌋ else ⌊q⌋ + 1

/-- Python `round(x, 2)`. -/
def round2 (q : ℚ) : ℚ := (rhe (q * 100) : ℚ) / 100

/-- Python `round(x, 3)`. -/
def round3 (q : ℚ) : ℚ := (rhe (q * 1000) : ℚ) / 1000

/-- Render a natural below 100 with two digits. -/
def padTwo (n : ℕ) : String :=
  if n < 10 then "0" ++ toString n else toString n

/-- Python `f"{v:.2f}"` fixed-point formatting. -/
def formatFixed2 (v : ℚ) : String :=
  if rhe (v * 100) < 0 then
    "-" ++ toString ((rhe (v * 100)).natAbs / 100) ++ "." ++ padTwo ((rhe (v * 100)).natAbs % 100)
  else
    toString ((rhe (v * 100)).natAbs / 100) ++ "." ++ padTwo ((rhe (v * 100)).natAbs % 100)

/-! Interface-observation model. -/

/-- Result of waiting for an element and reading its text: `unavailable` models
a raised (Playwright) timeout, `text s` the raw `text_content()`. -/
inductive ElemQuery where
  | unavailable : ElemQuery
  | text : String → ElemQuery
deriving DecidableEq

/-- Result of `page.query_selector(ORDER_SELECTOR)`: the order row is present,
absent, or the query raises a `PlaywrightError` mid-navigation. -/
inductive OrderQueryObs where
  | present : OrderQueryObs
  | absent : OrderQueryObs
  | navError : OrderQueryObs
deriving DecidableEq

/-- Interface mutations performed by the program, in order. -/
inductive Cmd where
  | clickBuyTab : Cmd
  | clickSellTab : Cmd
  | clickLimitTab : Cmd
  | fillPrice : String → Cmd
  | fillNotional : ℚ → Cmd
  | fillSize : ℚ → Cmd
  | clickSubmit : Cmd
  | clickCancel : Cmd
  | forceCancelJs : Cmd
  | reload : Cmd
deriving DecidableEq

/-- The two price buttons: `green` is `div.text-green-900 button` (read by
`get_real_buy_price`), `red` is `div.text-red-900 button` (read by
`compute_target_sell_price`). -/
structure PriceButtons where
  green : ElemQuery
  red : ElemQuery

/-- Raw texts of the wallet-balance elements. -/
structure BalPage where
  asset0Name : String
  asset1Name : String
  asset0Free : String
  asset1Free : String

/-- Environment for one `cancel_order` invocation: whether the normal click
and the forced JS click succeed, and the order query made afterwards. -/
structure CancelEnv where
  normalSucceeds : Bool
  forceSucceeds : Bool
  orderAfter : OrderQueryObs

/-- Supervisor phase (`transaction_type` in the source). -/
inductive Phase where
  | buy : Phase
  | sell : Phase
deriving DecidableEq

def oppositePhase : Phase → Phase
  | .buy => .sell
  | .sell => .buy

/-! Source functions. -/

/-- Source `TRADE_ASSET` global. -/
def TRADE_ASSET : String := "ETH"

/-- Source `safe_query_selector`: returns the element when present, `none`
both when the element is absent and when the query raises (`PlaywrightError`
is caught and `None` returned). -/
def safe_query_selector : OrderQueryObs → Option Unit
  | .present => some ()
  | .absent => none
  | .navError => none

/-- Truthiness of a `safe_query_selector` result. -/
def safeQuery (o : OrderQueryObs) : Bool :=
  (safe_query_selector o).isSome

/-- Source `get_real_buy_price`: read the green price button; any exception
(element unavailable) is caught and `None` returned; otherwise the stripped
text. -/
def get_real_buy_price (pb : PriceButtons) : Option String :=
  match pb.green with
  | .unavailable => none
  | .text s => some (pyStrip s)

/-- Source `compute_target_sell_price`: read the red price button (note: not
the green one used by `get_real_buy_price`), parse it, and add the random
increment `inc` (drawn from `uniform(0.01, 0.04)`), rounded to 2 decimals and
formatted.  The `wait_for_selector` call is NOT wrapped in `try`, so an
unavailable element raises (`Except.error`); an empty or unparsable text
returns `None` (`Except.ok none`). -/
def compute_target_sell_price (pb : PriceButtons) (inc : ℚ) : Except Unit (Option String) :=
  match pb.red with
  | .unavailable => .error ()
  | .text s =>
    if pyStrip s = "" then .ok none
    else
      match pyFloat (pyStrip s) with
      | none => .ok none
      | some v => .ok (some (formatFixed2 (round2 (v + inc))))

/-- Source `get_balances`: parse both balances; if `TRADE_ASSET` occurs in the
first asset's name the pair is `(asset0, asset1)`, otherwise `(asset1,
asset0 - 1)` (the fixed quote-reserve offset).  Returns
`(asset_balance, usdt_balance)`. -/
def get_balances (b : BalPage) : ℚ × ℚ :=
  if strHasSub (upperStr TRADE_ASSET) (upperStr (pyStrip b.asset0Name)) then
    (parse_balance (pyStrip b.asset0Free), parse_balance (pyStrip b.asset1Free))
  else
    (parse_balance (pyStrip b.asset1Free), parse_balance (pyStrip b.asset0Free) - 1)

/-- BUY sizing (source line 211): `round(available_for_trade * random_percent, 3)`. -/
def buy_trade_amount (usdt deduction pct : ℚ) : ℚ :=
  round3 ((usdt - deduction) * pct)

/-- SELL sizing (source line 289): `round(asset_balance * random_percent, 3)`. -/
def sell_trade_amount (asset pct : ℚ) : ℚ :=
  round3 (asset * pct)

/-- Source `cancel_order`: try the normal cancel click (resetting the global
failure counter on success, incrementing it on failure), then the forced JS
click likewise; finally re-query the order and reload the page (resetting the
counter) if it is still present.  Returns the new failure counter and the
performed interface mutations. -/
def cancel_order (env : CancelEnv) (fails : ℕ) : ℕ × List Cmd :=
  match (if env.normalSucceeds then (0, [Cmd.clickCancel])
         else if env.forceSucceeds then (0, [Cmd.forceCancelJs])
         else (fails + 2, ([] : List Cmd))) with
  | (f1, t1) => if safeQuery env.orderAfter then (0, t1 ++ [Cmd.reload]) else (f1, t1)

/-- One polling tick of the BUY observation loop. -/
structure BuyCheck where
  orderQuery : OrderQueryObs
  prices : PriceButtons

/-- Oracle for one `trade_limit_buy_asset` invocation. -/
structure BuyEnv where
  prices : PriceButtons
  bal : BalPage
  pct : ℚ
  deduction : ℚ
  prices2 : PriceButtons
  checks : ℕ → BuyCheck
  cancelEnv : CancelEnv

/-- One polling tick of the SELL observation loop. -/
structure SellCheck where
  orderQuery : OrderQueryObs
  prices : PriceButtons
  inc : ℚ

/-- Oracle for one `trade_limit_sell_asset` invocation. -/
structure SellEnv where
  prices : PriceButtons
  inc1 : ℚ
  bal : BalPage
  pct : ℚ
  prices2 : PriceButtons
  inc2 : ℚ
  checks : ℕ → SellCheck
  cancelEnv : CancelEnv
  afterCancel : OrderQueryObs

/-- Observation loop of `trade_limit_buy_asset` (source lines 232-248), with
`fuel` checks remaining out of 3 and `k` checks done: no order observed means
filled (`true`); a changed (or unreadable) price triggers `cancel_order` and
failure; an unchanged price continues; exhausting the checks triggers
`cancel_order` and failure. -/
def buyObserve (checks : ℕ → BuyCheck) (cenv : CancelEnv) (last : String) (fails : ℕ)
    (k : ℕ) : ℕ → Bool × ℕ × List Cmd
  | 0 =>
    match cancel_order cenv fails with
    | (f1, t1) => (false, f1, t1 ++ [Cmd.clickBuyTab])
  | fuel + 1 =>
    if safeQuery (checks k).orderQuery then
      if get_real_buy_price (checks k).prices ≠ some last then
        match cancel_order cenv fails with
        | (f1, t1) => (false, f1, t1 ++ [Cmd.clickBuyTab])
      else buyObserve checks cenv last fails (k + 1) fuel
    else (true, fails, [Cmd.clickBuyTab])

/-- Tail of `trade_limit_buy_asset` after sizing: assemble the trace around
the observation loop (`step` is the possibly-updated working price together
with the price re-fill it caused). -/
def buyFinish (env : BuyEnv) (fails : ℕ) (p : String) (step : String × List Cmd) :
    Bool × ℕ × List Cmd :=
  match buyObserve env.checks env.cancelEnv step.1 fails 0 3 with
  | (r, f2, t) =>
    (r, f2,
      [Cmd.clickBuyTab, Cmd.clickLimitTab, Cmd.fillPrice p,
       Cmd.fillNotional (buy_trade_amount (get_balances env.bal).2 env.deduction env.pct)]
        ++ step.2 ++ [Cmd.clickSubmit] ++ t)

/-- Pre-submit re-validation of `trade_limit_buy_asset` (source lines
221-227): re-read the price and overwrite the working price if it is truthy
and different. -/
def buyAfterSizing (env : BuyEnv) (fails : ℕ) (p : String) : Bool × ℕ × List Cmd :=
  buyFinish env fails p
    (match get_real_buy_price env.prices2 with
     | some np => if np ≠ "" ∧ np ≠ p then (np, [Cmd.fillPrice np]) else (p, [])
     | none => (p, []))

/-- Source `trade_limit_buy_asset`: click the BUY and limit tabs; abort if the
price cannot be read (falsy); fill the price; abort if
`usdt_balance - deduction ≤ 0` (insufficient funds, after the price fill);
otherwise size, re-validate, submit and run the observation loop.  Returns
(fill flag, new failure counter, interface mutations). -/
def trade_limit_buy_asset (env : BuyEnv) (fails : ℕ) : Bool × ℕ × List Cmd :=
  match get_real_buy_price env.prices with
  | none => (false, fails, [Cmd.clickBuyTab, Cmd.clickLimitTab])
  | some p =>
    if p = "" then (false, fails, [Cmd.clickBuyTab, Cmd.clickLimitTab])
    else if (get_balances env.bal).2 - env.deduction ≤ 0 then
      (false, fails, [Cmd.clickBuyTab, Cmd.clickLimitTab, Cmd.fillPrice p])
    else
      buyAfterSizing env fails p

/-- Observation loop of `trade_limit_sell_asset` (source lines 310-335): no
order means filled; a changed (or unreadable) target triggers `cancel_order`
followed by a re-query that treats a vanished order as a successful fill; the
per-check `compute_target_sell_price` can raise. -/
def sellObserve (checks : ℕ → SellCheck) (cenv : CancelEnv) (after : OrderQueryObs)
    (last : String) (fails : ℕ) (k : ℕ) : ℕ → Except Unit (Bool × ℕ × List Cmd)
  | 0 =>
    match cancel_order cenv fails with
    | (f1, t1) => .ok (false, f1, t1 ++ [Cmd.clickSellTab])
  | fuel + 1 =>
    if safeQuery (checks k).orderQuery then
      match compute_target_sell_price (checks k).prices (checks k).inc with
      | .error e => .error e
      | .ok newT =>
        if newT ≠ some last then
          match cancel_order cenv fails with
          | (f1, t1) =>
            if safeQuery after then .ok (false, f1, t1 ++ [Cmd.clickSellTab])
            else .ok (true, f1, t1 ++ [Cmd.clickSellTab])
        else sellObserve checks cenv after last fails (k + 1) fuel
    else .ok (true, fails, [Cmd.clickSellTab])

/-- Tail of `trade_limit_sell_asset` after sizing: assemble the trace around
the observation loop. -/
def sellFinish (env : SellEnv) (fails : ℕ) (tp : String) (step : String × List Cmd) :
    Except Unit (Bool × ℕ × List Cmd) :=
  match sellObserve env.checks env.cancelEnv env.afterCancel step.1 fails 0 3 with
  | .error e => .error e
  | .ok (r, f2, t) =>
    .ok (r, f2,
      [Cmd.clickSellTab, Cmd.clickLimitTab, Cmd.clickSellTab, Cmd.fillPrice tp,
       Cmd.fillSize (sell_trade_amount (get_balances env.bal).1 env.pct)]
        ++ step.2 ++ [Cmd.clickSubmit] ++ t)

/-- Source `trade_limit_sell_asset`: click the SELL, limit and SELL tabs;
compute the target price (which may raise or be falsy); fill it; size from the
asset balance (no insufficiency check); re-validate the target (which may also
raise); submit and run the observation loop. -/
def trade_limit_sell_asset (env : SellEnv) (fails : ℕ) : Except Unit (Bool × ℕ × List Cmd) :=
  match compute_target_sell_price env.prices env.inc1 with
  | .error e => .error e
  | .ok none => .ok (false, fails, [Cmd.clickSellTab, Cmd.clickLimitTab, Cmd.clickSellTab])
  | .ok (some tp) =>
    if tp = "" then .ok (false, fails, [Cmd.clickSellTab, Cmd.clickLimitTab, Cmd.clickSellTab])
    else
      match compute_target_sell_price env.prices2 env.inc2 with
      | .error e => .error e
      | .ok newT =>
        sellFinish env fails tp
          (match newT with
           | some nt => if nt ≠ "" ∧ nt ≠ tp then (nt, [Cmd.fillPrice nt]) else (tp, [])
           | none => (tp, []))

/-! Trading-supervisor loop (source `run_trading_loop`, lines 472-510). -/

/-- Supervisor state: `transaction_type`, `active_order_count` and the global
`cancellation_failures` counter. -/
structure SupState where
  phase : Phase
  count : ℕ
  fails : ℕ

/-- Oracle for one tick of the supervisor's `while True` loop. -/
structure TickObs where
  activeOrder : OrderQueryObs
  cancelEnv : CancelEnv
  buyEnv : BuyEnv
  sellEnv : SellEnv
  recheck : OrderQueryObs

/-- Result of one supervisor tick. -/
structure TickResult where
  state : SupState
  forcedCancel : Bool
  invokedController : Bool
  controllerResult : Option Bool
  crashed : Bool
  cmds : List Cmd

/-- Dispatch the controller for the current phase.  A BUY attempt never
raises; a SELL attempt may (unavailable red price button). -/
def runController (phase : Phase) (o : TickObs) (fails : ℕ) :
    Except Unit (Bool × ℕ × List Cmd) :=
  match phase with
  | .buy => .ok (trade_limit_buy_asset o.buyEnv fails)
  | .sell => trade_limit_sell_asset o.sellEnv fails

/-- One tick of `run_trading_loop`'s main loop: if an order is active,
increment the stuck counter — forcing a cancellation and reset once it
reaches 3 — and skip the controller; otherwise reset the counter, run the
controller for the current phase, and flip the phase only when the controller
reported a fill AND the re-check finds no active order.  An exception escaping
the controller crashes the loop (`crashed`). -/
def tradingLoopTick (s : SupState) (o : TickObs) : TickResult :=
  if safeQuery o.activeOrder then
    if 3 ≤ s.count + 1 then
      match cancel_order o.cancelEnv s.fails with
      | (f1, t1) =>
        { state := ⟨s.phase, 0, f1⟩, forcedCancel := true, invokedController := false,
          controllerResult := none, crashed := false, cmds := t1 }
    else
      { state := ⟨s.phase, s.count + 1, s.fails⟩, forcedCancel := false,
        invokedController := false, controllerResult := none, crashed := false, cmds := [] }
  else
    match runController s.phase o s.fails with
    | .error _ =>
      { state := ⟨s.phase, 0, s.fails⟩, forcedCancel := false, invokedController := true,
        controllerResult := none, crashed := true, cmds := [] }
    | .ok (r, f2, t) =>
      { state := ⟨if r = true ∧ safeQuery o.recheck = false then oppositePhase s.phase
                  else s.phase, 0, f2⟩,
        forcedCancel := false, invokedController := true, controllerResult := some r,
        crashed := false, cmds := t }


/-! Concrete fixtures used by the counterexamples and witnesses. -/

/-- Price buttons showing a green (buy-side) price of 100.00 and a red
(sell-side) price of 99.00. -/
def pbGood : PriceButtons := ⟨.text "100.00", .text "99.00"⟩

/-- Price buttons whose red (sell-side) button is unavailable. -/
def pbRedGone : PriceButtons := ⟨.text "100.00", .unavailable⟩

/-- Wallet page: 10 ETH free, 1000 USDT free. -/
def balGood : BalPage := ⟨"ETH", "USDT", "10", "1000"⟩

/-- Wallet page whose USDT balance reads 1.2. -/
def balLow : BalPage := ⟨"ETH", "USDT", "0.5", "1.2"⟩

/-- Wallet page with unreadable balance texts. -/
def balJunk : BalPage := ⟨"ETH", "USDT", "n/a", "--"⟩

/-- Cancellation environment: the normal cancel click succeeds and removes the
order. -/
def cenvOk : CancelEnv := ⟨true, false, .absent⟩

/-- Cancellation environment with no active order: the cancel button does not
exist, so the normal visibility wait times out and the forced
`document.querySelector(...).click()` throws on `null`; the follow-up order
query finds nothing. -/
def cenvNoOrder : CancelEnv := ⟨false, false, .absent⟩

/-- BUY attempt that fills on the first post-submit check. -/
def buyEnvFill : BuyEnv :=
  { prices := pbGood, bal := balGood, pct := 9/10, deduction := 3/2,
    prices2 := pbGood, checks := fun _ => ⟨.absent, pbGood⟩, cancelEnv := cenvOk }

/-- BUY attempt with insufficient funds: quote balance 1.2, deduction 1.5. -/
def buyEnvLow : BuyEnv :=
  { buyEnvFill with bal := balLow }

/-- BUY attempt with unreadable balance texts. -/
def buyEnvJunk : BuyEnv :=
  { buyEnvFill with bal := balJunk }

/-- BUY attempt whose green price button is unavailable. -/
def buyEnvNoPrice : BuyEnv :=
  { buyEnvFill with prices := ⟨.unavailable, .text "99.00"⟩ }

/-- BUY attempt whose first post-submit order query raises mid-navigation. -/
def buyEnvNav : BuyEnv :=
  { buyEnvFill with checks := fun _ => ⟨.navError, pbGood⟩ }

/-- SELL attempt that fills on the first post-submit check. -/
def sellEnvFill : SellEnv :=
  { prices := pbGood, inc1 := 1/100, bal := balGood, pct := 9/10,
    prices2 := pbGood, inc2 := 1/100, checks := fun _ => ⟨.absent, pbGood, 1/100⟩,
    cancelEnv := cenvOk, afterCancel := .absent }

/-- SELL attempt whose red price button is unavailable at price discovery. -/
def sellEnvCrash : SellEnv :=
  { sellEnvFill with prices := pbRedGone }

/-- Supervisor state at phase BUY with a fresh stuck counter. -/
def st0 : SupState := ⟨.buy, 0, 0⟩

/-- Supervisor state at phase BUY after two consecutive active observations. -/
def st2 : SupState := ⟨.buy, 2, 0⟩

/-- Tick observation: no active order, the BUY attempt fills, but the
post-fill re-check still reports an active order. -/
def obsC1 : TickObs :=
  { activeOrder := .absent, cancelEnv := cenvOk, buyEnv := buyEnvFill,
    sellEnv := sellEnvFill, recheck := .present }

/-- Tick observation: an active order is present. -/
def obsActive : TickObs :=
  { activeOrder := .present, cancelEnv := cenvOk, buyEnv := buyEnvFill,
    sellEnv := sellEnvFill, recheck := .absent }

/-! General lemmas about the embedded arithmetic. -/

theorem rhe_le_add_half (q : ℚ) : (rhe q : ℚ) ≤ q + 1/2 := by
  have h1 : (⌊q⌋ : ℚ) ≤ q := Int.floor_le q
  have h2 : q < ⌊q⌋ + 1 := Int.lt_floor_add_one q
  unfold rhe
  split_ifs <;> push_cast <;> linarith

theorem sub_half_le_rhe (q : ℚ) : q - 1/2 ≤ (rhe q : ℚ) := by
  have h1 : (⌊q⌋ : ℚ) ≤ q := Int.floor_le q
  have h2 : q < ⌊q⌋ + 1 := Int.lt_floor_add_one q
  unfold rhe
  split_ifs <;> push_cast <;> linarith

theorem rhe_nonneg (q : ℚ) (h : 0 ≤ q) : 0 ≤ rhe q := by
  have h1 : 0 ≤ ⌊q⌋ := Int.floor_nonneg.mpr h
  unfold rhe
  split_ifs <;> omega

theorem round3_le (q : ℚ) : round3 q ≤ q + 1/2000 := by
  have h := rhe_le_add_half (q * 1000)
  unfold round3
  linarith

theorem le_round3 (q : ℚ) : q - 1/2000 ≤ round3 q := by
  have h := sub_half_le_rhe (q * 1000)
  unfold round3
  linarith

theorem round3_nonneg (q : ℚ) (h : 0 ≤ q) : 0 ≤ round3 q := by
  have h1 : 0 ≤ rhe (q * 1000) := rhe_nonneg _ (by linarith)
  unfold round3
  positivity

theorem round2_le (q : ℚ) : round2 q ≤ q + 1/200 := by
  have h := rhe_le_add_half (q * 100)
  unfold round2
  linarith

theorem le_round2 (q : ℚ) : q - 1/200 ≤ round2 q := by
  have h := sub_half_le_rhe (q * 100)
  unfold round2
  linarith

theorem floatOfClean_nonneg (s : String) (v : ℚ) (h : floatOfClean s = some v) : 0 ≤ v := by
  unfold floatOfClean at h
  split at h
  · split at h
    · obtain rfl : (digitsVal _ : ℚ) = v := by injection h
      positivity
    · exact absurd h (by simp)
  · split at h
    · obtain rfl : ((digitsVal _ : ℚ) + (digitsVal _ : ℚ) / (10:ℚ) ^ _) = v := by injection h
      positivity
    · exact absurd h (by simp)
  · exact absurd h (by simp)

theorem parse_balance_nonneg (s : String) : 0 ≤ parse_balance s := by
  unfold parse_balance
  cases h : floatOfClean (stripNonNumeric s) with
  | none => simp
  | some v => simpa using floatOfClean_nonneg _ v h

theorem stripNonNumeric_idem (s : String) :
    stripNonNumeric (stripNonNumeric s) = stripNonNumeric s := by
  unfold stripNonNumeric
  have hl : (String.mk (s.toList.filter fun c => c.isDigit || c == '.')).toList
      = s.toList.filter fun c => c.isDigit || c == '.' := rfl
  rw [hl, List.filter_filter]
  simp [Bool.and_self]

/-! Helper lemmas about the controllers. -/

theorem safeQuery_eq_true_iff (o : OrderQueryObs) :
    safeQuery o = true ↔ o = OrderQueryObs.present := by
  cases o <;> simp [safeQuery, safe_query_selector]

theorem buyObserve_first_navError (checks : ℕ → BuyCheck) (cenv : CancelEnv) (last : String)
    (fails : ℕ) (h : (checks 0).orderQuery = OrderQueryObs.navError) :
    buyObserve checks cenv last fails 0 3 = (true, fails, [Cmd.clickBuyTab]) := by
  show buyObserve checks cenv last fails 0 (2 + 1) = (true, fails, [Cmd.clickBuyTab])
  rw [buyObserve]
  simp [h, safeQuery, safe_query_selector]

theorem buy_abort_insufficient (env : BuyEnv) (fails : ℕ)
    (h : (get_balances env.bal).2 - env.deduction ≤ 0) :
    (trade_limit_buy_asset env fails).1 = false ∧
    ∀ c ∈ (trade_limit_buy_asset env fails).2.2,
      c = Cmd.clickBuyTab ∨ c = Cmd.clickLimitTab ∨ ∃ v, c = Cmd.fillPrice v := by
  cases hq : get_real_buy_price env.prices with
  | none =>
    simp only [trade_limit_buy_asset, hq]
    refine ⟨by simp, ?_⟩
    intro c hc
    fin_cases hc
    · exact Or.inl rfl
    · exact Or.inr (Or.inl rfl)
  | some p =>
    by_cases hp : p = ""
    · subst hp
      simp only [trade_limit_buy_asset, hq, if_pos rfl]
      refine ⟨by simp, ?_⟩
      intro c hc
      fin_cases hc
      · exact Or.inl rfl
      · exact Or.inr (Or.inl rfl)
    · simp only [trade_limit_buy_asset, hq]
      rw [if_neg hp, if_pos h]
      refine ⟨by simp, ?_⟩
      intro c hc
      fin_cases hc
      · exact Or.inl rfl
      · exact Or.inr (Or.inl rfl)
      · exact Or.inr (Or.inr ⟨p, rfl⟩)

theorem buy_abort_no_price (env : BuyEnv) (fails : ℕ)
    (h : get_real_buy_price env.prices = none ∨ get_real_buy_price env.prices = some "") :
    trade_limit_buy_asset env fails = (false, fails, [Cmd.clickBuyTab, Cmd.clickLimitTab]) := by
  rcases h with h | h
  · simp only [trade_limit_buy_asset, h]
  · simp only [trade_limit_buy_asset, h]
    simp

theorem sell_abort_no_price (env : SellEnv) (fails : ℕ)
    (h : compute_target_sell_price env.prices env.inc1 = Except.ok none) :
    trade_limit_sell_asset env fails =
      Except.ok (false, fails, [Cmd.clickSellTab, Cmd.clickLimitTab, Cmd.clickSellTab]) := by
  unfold trade_limit_sell_asset
  rw [h]

theorem sell_raises_red_unavailable (env : SellEnv) (fails : ℕ)
    (h : env.prices.red = ElemQuery.unavailable) :
    trade_limit_sell_asset env fails = Except.error () := by
  have hc : compute_target_sell_price env.prices env.inc1 = Except.error () := by
    unfold compute_target_sell_price
    rw [h]
  unfold trade_limit_sell_asset
  rw [hc]
/-! Rewrite lemmas for the four branches of a supervisor tick. -/

theorem tick_active_small (s : SupState) (o : TickObs)
    (hao : safeQuery o.activeOrder = true) (h3 : s.count + 1 < 3) :
    tradingLoopTick s o =
      { state := ⟨s.phase, s.count + 1, s.fails⟩, forcedCancel := false,
        invokedController := false, controllerResult := none, crashed := false,
        cmds := [] } := by
  unfold tradingLoopTick
  rw [if_pos hao, if_neg (by omega : ¬ 3 ≤ s.count + 1)]

theorem tick_active_big (s : SupState) (o : TickObs)
    (hao : safeQuery o.activeOrder = true) (h3 : 3 ≤ s.count + 1) :
    tradingLoopTick s o =
      { state := ⟨s.phase, 0, (cancel_order o.cancelEnv s.fails).1⟩, forcedCancel := true,
        invokedController := false, controllerResult := none, crashed := false,
        cmds := (cancel_order o.cancelEnv s.fails).2 } := by
  unfold tradingLoopTick
  rw [if_pos hao, if_pos h3]

theorem tick_inactive_error (s : SupState) (o : TickObs) (e : Unit)
    (hao : safeQuery o.activeOrder = false)
    (hrc : runController s.phase o s.fails = Except.error e) :
    tradingLoopTick s o =
      { state := ⟨s.phase, 0, s.fails⟩, forcedCancel := false, invokedController := true,
        controllerResult := none, crashed := true, cmds := [] } := by
  unfold tradingLoopTick
  rw [if_neg (by simp [hao]), hrc]

theorem tick_inactive_ok (s : SupState) (o : TickObs) (r : Bool) (f2 : ℕ) (t : List Cmd)
    (hao : safeQuery o.activeOrder = false)
    (hrc : runController s.phase o s.fails = Except.ok (r, f2, t)) :
    tradingLoopTick s o =
      { state := ⟨if r = true ∧ safeQuery o.recheck = false then oppositePhase s.phase
                  else s.phase, 0, f2⟩,
        forcedCancel := false, invokedController := true, controllerResult := some r,
        crashed := false, cmds := t } := by
  unfold tradingLoopTick
  rw [if_neg (by simp [hao]), hrc]

/-! Claim analyses. -/

/-- C1 (counterexample): the claim that a `Filled` controller outcome always
flips the phase is false.  Concretely, with phase BUY and a BUY attempt that
reports a fill, the supervisor's post-fill re-check (line 497) still observes
an active order, and the phase stays BUY. -/
theorem C1_filled_no_flip_cex :
    (tradingLoopTick st0 obsC1).controllerResult = some true ∧
    safeQuery obsC1.recheck = true ∧
    (tradingLoopTick st0 obsC1).state.phase = Phase.buy ∧
    st0.phase = Phase.buy := by decide

/-- C1 (amended): on every supervisor tick the phase flips to the opposite
side exactly when the controller reported `Filled` (`controllerResult = some
true`) AND the supervisor's re-check finds no active order; in every other
case — any non-`Filled` outcome, a tick that skipped the controller, a crash,
or a `Filled` whose re-check still sees an order — the phase is unchanged. -/
theorem C1_phase_flip_characterisation (s : SupState) (o : TickObs) :
    (tradingLoopTick s o).state.phase =
      if (tradingLoopTick s o).controllerResult = some true ∧ safeQuery o.recheck = false
      then oppositePhase s.phase
      else s.phase := by
  by_cases hao : safeQuery o.activeOrder = true
  · by_cases h3 : 3 ≤ s.count + 1
    · rw [tick_active_big s o hao h3]
      simp
    · rw [tick_active_small s o hao (by omega)]
      simp
  · have hao2 : safeQuery o.activeOrder = false := by
      simpa using hao
    cases hrc : runController s.phase o s.fails with
    | error e =>
      rw [tick_inactive_error s o e hao2 hrc]
      simp
    | ok v =>
      obtain ⟨r, f2, t⟩ := v
      rw [tick_inactive_ok s o r f2 t hao2 hrc]
      by_cases hr : (r = true ∧ safeQuery o.recheck = false) <;> simp [hr]

/-- C4: the stuck-order counter is reset to 0 on every tick at which no
active order is observed; while an order is observed it increments once per
tick and the controller is not invoked; the forced cancellation fires exactly
when the incremented counter reaches 3 — i.e. at the 3rd consecutive
observation of an active order, never earlier — after which the counter is 0;
and the counter never exceeds 2 between ticks. -/
theorem C4_stuck_counter_behaviour (s : SupState) (o : TickObs) :
    (safeQuery o.activeOrder = false →
      (tradingLoopTick s o).state.count = 0 ∧ (tradingLoopTick s o).forcedCancel = false) ∧
    (safeQuery o.activeOrder = true → (tradingLoopTick s o).invokedController = false) ∧
    (safeQuery o.activeOrder = true → s.count + 1 < 3 →
      (tradingLoopTick s o).forcedCancel = false ∧
      (tradingLoopTick s o).state.count = s.count + 1) ∧
    (safeQuery o.activeOrder = true → 3 ≤ s.count + 1 →
      (tradingLoopTick s o).forcedCancel = true ∧ (tradingLoopTick s o).state.count = 0) ∧
    (tradingLoopTick s o).state.count ≤ 2 ∧
    (s.count ≤ 2 →
      ((tradingLoopTick s o).forcedCancel = true ↔
        safeQuery o.activeOrder = true ∧ s.count = 2)) := by
  by_cases hao : safeQuery o.activeOrder = true
  · by_cases h3 : 3 ≤ s.count + 1
    · rw [tick_active_big s o hao h3]
      refine ⟨by simp [hao], fun _ => rfl, by omega, fun _ _ => ⟨rfl, rfl⟩, by simp, ?_⟩
      intro hc
      simp [hao]
      omega
    · rw [tick_active_small s o hao (by omega)]
      refine ⟨by simp [hao], fun _ => rfl, fun _ _ => ⟨rfl, rfl⟩, by omega, by simp; omega, ?_⟩
      intro hc
      simp [hao]
      omega
  · have hao2 : safeQuery o.activeOrder = false := by
      simpa using hao
    cases hrc : runController s.phase o s.fails with
    | error e =>
      rw [tick_inactive_error s o e hao2 hrc]
      refine ⟨fun _ => ⟨rfl, rfl⟩, by simp [hao2], by simp [hao2], by simp [hao2], by simp, ?_⟩
      intro hc
      simp [hao2]
    | ok v =>
      obtain ⟨r, f2, t⟩ := v
      rw [tick_inactive_ok s o r f2 t hao2 hrc]
      refine ⟨fun _ => ⟨rfl, rfl⟩, by simp [hao2], by simp [hao2], by simp [hao2], by simp, ?_⟩
      intro hc
      simp [hao2]

/-- C4 (witness): with the counter at 2 and an active order observed, the
forced cancellation fires and the counter resets to 0. -/
theorem C4_stuck_counter_witness :
    (tradingLoopTick st2 obsActive).forcedCancel = true ∧
    (tradingLoopTick st2 obsActive).state.count = 0 :=
  (C4_stuck_counter_behaviour st2 obsActive).2.2.2.1 (by decide) (by decide)

/-- C2 (counterexample): the claim that unavailable price data never lets an
exception escape the controller is false on the SELL side: the
`wait_for_selector` call in `compute_target_sell_price` is not wrapped in
`try`, so when the red price button is unavailable the SELL attempt raises
instead of resolving `Aborted`. -/
theorem C2_sell_price_raises_cex :
    sellEnvCrash.prices.red = ElemQuery.unavailable ∧
    trade_limit_sell_asset sellEnvCrash 0 = Except.error () := ⟨rfl, rfl⟩

/-- C2 (amended): a falsy BUY price aborts the BUY attempt right after the
tab clicks, with nothing submitted or cancelled; an empty or unparsable SELL
price text likewise aborts the SELL attempt; but an unavailable SELL price
element raises an exception that escapes the controller (reaching the
top-level restart handler).  A BUY attempt whose quote balance reads ≤ 0
(e.g. unreadable text parsed as 0) aborts without submitting or cancelling. -/
theorem C2_unavailable_data_aborts (env : BuyEnv) (senv : SellEnv) (fails : ℕ) :
    (get_real_buy_price env.prices = none ∨ get_real_buy_price env.prices = some "" →
      trade_limit_buy_asset env fails =
        (false, fails, [Cmd.clickBuyTab, Cmd.clickLimitTab])) ∧
    (compute_target_sell_price senv.prices senv.inc1 = Except.ok none →
      trade_limit_sell_asset senv fails =
        Except.ok (false, fails, [Cmd.clickSellTab, Cmd.clickLimitTab, Cmd.clickSellTab])) ∧
    (senv.prices.red = ElemQuery.unavailable →
      trade_limit_sell_asset senv fails = Except.error ()) ∧
    ((get_balances env.bal).2 ≤ 0 → 1 ≤ env.deduction →
      (trade_limit_buy_asset env fails).1 = false ∧
      Cmd.clickSubmit ∉ (trade_limit_buy_asset env fails).2.2 ∧
      Cmd.clickCancel ∉ (trade_limit_buy_asset env fails).2.2 ∧
      Cmd.forceCancelJs ∉ (trade_limit_buy_asset env fails).2.2 ∧
      Cmd.reload ∉ (trade_limit_buy_asset env fails).2.2) := by
  refine ⟨buy_abort_no_price env fails, sell_abort_no_price senv fails,
    sell_raises_red_unavailable senv fails, ?_⟩
  intro hb hd
  have h := buy_abort_insufficient env fails (by linarith)
  refine ⟨h.1, ?_, ?_, ?_, ?_⟩ <;>
    · intro hmem
      rcases h.2 _ hmem with h1 | h1 | ⟨v, h1⟩ <;> simp at h1

/-- C2 (witness): concrete instantiations of the amended claim. -/
theorem C2_unavailable_data_aborts_witness :
    trade_limit_buy_asset buyEnvNoPrice 0 =
      (false, 0, [Cmd.clickBuyTab, Cmd.clickLimitTab]) ∧
    (trade_limit_buy_asset buyEnvJunk 0).1 = false ∧
    Cmd.clickSubmit ∉ (trade_limit_buy_asset buyEnvJunk 0).2.2 := by
  refine ⟨(C2_unavailable_data_aborts buyEnvNoPrice sellEnvCrash 0).1 (Or.inl (by decide)),
    ?_, ?_⟩
  · exact ((C2_unavailable_data_aborts buyEnvJunk sellEnvCrash 0).2.2.2
      (by decide) (by decide)).1
  · exact ((C2_unavailable_data_aborts buyEnvJunk sellEnvCrash 0).2.2.2
      (by decide) (by decide)).2.1

/-- C3 (counterexample): with quoteFree = 2.0004, deduction = 2 and pct = 0.8
— all inside the claimed bounds, with quoteFree − deduction = 0.0004 > 0 —
the computed BUY amount rounds to 0, which is not strictly positive. -/
theorem C3_zero_amount_cex :
    (0 : ℚ) < (2 + 1/2500) - 2 ∧ 1 ≤ (2 : ℚ) ∧ (2 : ℚ) ≤ 2 ∧
    (4/5 : ℚ) ≤ 4/5 ∧ (4/5 : ℚ) ≤ 19/20 ∧
    buy_trade_amount (2 + 1/2500) 2 (4/5) = 0 ∧
    ¬ 0 < buy_trade_amount (2 + 1/2500) 2 (4/5) := by decide

/-- C3 (amended): for quoteFree − deduction > 0, deduction ≥ 1 and pct ∈
[0.80, 0.95], the computed BUY amount is non-negative (it can round to exactly
0 when the available funds are tiny) and ≤ quoteFree; and whenever the code's
quote balance minus deduction is ≤ 0 the attempt aborts without submitting. -/
theorem C3_buy_sizing_bounds (q d pct : ℚ) (env : BuyEnv) (fails : ℕ)
    (hd : 1 ≤ d) (hp1 : 4/5 ≤ pct) (hp2 : pct ≤ 19/20) (h : 0 < q - d) :
    0 ≤ buy_trade_amount q d pct ∧ buy_trade_amount q d pct ≤ q ∧
    ((get_balances env.bal).2 - env.deduction ≤ 0 →
      (trade_limit_buy_asset env fails).1 = false ∧
      Cmd.clickSubmit ∉ (trade_limit_buy_asset env fails).2.2) := by
  refine ⟨?_, ?_, ?_⟩
  · exact round3_nonneg _ (mul_nonneg (le_of_lt h) (by linarith))
  · have hb := round3_le ((q - d) * pct)
    have hm : (q - d) * pct ≤ (q - d) * (19/20) :=
      mul_le_mul_of_nonneg_left hp2 (le_of_lt h)
    unfold buy_trade_amount
    nlinarith [hb, hm]
  · intro hb2
    have hh := buy_abort_insufficient env fails hb2
    refine ⟨hh.1, ?_⟩
    intro hmem
    rcases hh.2 _ hmem with h1 | h1 | ⟨v, h1⟩ <;> simp at h1

/-- C3 (witness): the amended bounds at quoteFree = 1000, deduction = 1.5,
pct = 0.9, and the abort at quote balance 1.2 with deduction 1.5. -/
theorem C3_buy_sizing_bounds_witness :
    0 ≤ buy_trade_amount 1000 (3/2) (9/10) ∧
    buy_trade_amount 1000 (3/2) (9/10) ≤ 1000 ∧
    (trade_limit_buy_asset buyEnvLow 0).1 = false := by
  have h := C3_buy_sizing_bounds 1000 (3/2) (9/10) buyEnvLow 0
    (by norm_num) (by norm_num) (by norm_num) (by norm_num)
  exact ⟨h.1, h.2.1, (h.2.2 (by decide)).1⟩

/-- C5 (counterexample): with assetFree = 0.0006 and pct = 0.9 ∈ [0.80,
0.95], the SELL amount rounds up to 0.001, which exceeds assetFree. -/
theorem C5_sell_exceeds_balance_cex :
    (4/5 : ℚ) ≤ 9/10 ∧ (9/10 : ℚ) ≤ 19/20 ∧
    sell_trade_amount (3/5000) (9/10) = 1/1000 ∧
    ¬ sell_trade_amount (3/5000) (9/10) ≤ 3/5000 := by decide

/-- C5 (amended): for pct ∈ [0.80, 0.95] the SELL amount is always an exact
multiple of 0.001 (3 decimal places), and it is ≤ assetFree whenever
assetFree ≥ 0.01; for smaller balances rounding up can exceed assetFree. -/
theorem C5_sell_sizing_bounds (a pct : ℚ) (hp1 : 4/5 ≤ pct) (hp2 : pct ≤ 19/20) :
    (∃ n : ℤ, sell_trade_amount a pct = (n : ℚ) / 1000) ∧
    (1/100 ≤ a → sell_trade_amount a pct ≤ a) := by
  constructor
  · exact ⟨rhe ((a * pct) * 1000), rfl⟩
  · intro ha
    have hb := round3_le (a * pct)
    have hm : a * pct ≤ a * (19/20) := mul_le_mul_of_nonneg_left hp2 (by linarith)
    unfold sell_trade_amount
    nlinarith [hb, hm]

/-- C5 (witness): the amended bounds at assetFree = 1, pct = 0.9. -/
theorem C5_sell_sizing_bounds_witness :
    (∃ n : ℤ, sell_trade_amount 1 (9/10) = (n : ℚ) / 1000) ∧
    sell_trade_amount 1 (9/10) ≤ 1 := by
  have h := C5_sell_sizing_bounds 1 (9/10) (by norm_num) (by norm_num)
  exact ⟨h.1, h.2 (by norm_num)⟩

/-- C6 (counterexample): the SELL target is not derived from the BUY-side
reference.  On a page whose green (buy-side) button reads 100.00 and whose
red (sell-side) button reads 99.00, the computed SELL target is 99.01 — the
red price plus the increment — which is strictly below the BUY reference, so
the claimed invariant target ≥ BUY reference fails. -/
theorem C6_sell_target_not_buy_ref_cex :
    get_real_buy_price pbGood = some "100.00" ∧
    pyFloat "100.00" = some 100 ∧
    (1/100 : ℚ) ≤ 1/100 ∧ (1/100 : ℚ) ≤ 1/25 ∧
    compute_target_sell_price pbGood (1/100) = Except.ok (some "99.01") ∧
    pyFloat "99.01" = some (9901/100) ∧
    ¬ (100 : ℚ) ≤ 9901/100 := by
  exact ⟨rfl, by decide, by norm_num, by norm_num, rfl, by decide, by norm_num⟩

/-- C6 (amended): the SELL target equals the SELL-side (red-button) reference
price plus the random increment, rounded to 2 decimals; for an increment in
[0.01, 0.04] it is strictly greater than that sell-side reference and at most
that reference + 0.04 + rounding slack.  It is not computed from the BUY-side
(green) reference. -/
theorem C6_sell_target_formula (pb : PriceButtons) (s : String) (p inc : ℚ)
    (hred : pb.red = ElemQuery.text s) (hne : pyStrip s ≠ "")
    (hp : pyFloat (pyStrip s) = some p) (h1 : 1/100 ≤ inc) (h2 : inc ≤ 1/25) :
    compute_target_sell_price pb inc =
      Except.ok (some (formatFixed2 (round2 (p + inc)))) ∧
    p < round2 (p + inc) ∧ round2 (p + inc) ≤ p + 1/25 + 1/200 := by
  refine ⟨?_, ?_, ?_⟩
  · simp only [compute_target_sell_price, hred]
    rw [if_neg hne]
    simp only [hp]
  · have hl := le_round2 (p + inc)
    linarith
  · have hu := round2_le (p + inc)
    linarith

/-- C6 (witness): the amended formula on the concrete page fixture. -/
theorem C6_sell_target_formula_witness :
    compute_target_sell_price pbGood (1/100) =
      Except.ok (some (formatFixed2 (round2 (99 + 1/100)))) ∧
    (99 : ℚ) < round2 (99 + 1/100) := by
  have h := C6_sell_target_formula pbGood "99.00" 99 (1/100) rfl (by decide) (by decide)
    (by norm_num) (by norm_num)
  exact ⟨h.1, h.2.1⟩

/-- C7 (counterexample): cancelling with no active order does change program
state: both cancel paths fail, so the global cancellation-failure counter is
incremented by 2 (from 0 to 2), contradicting the claim that the invocation
leaves program state unchanged. -/
theorem C7_cancel_no_order_counter_cex :
    cenvNoOrder.normalSucceeds = false ∧ cenvNoOrder.forceSucceeds = false ∧
    cenvNoOrder.orderAfter = OrderQueryObs.absent ∧
    cancel_order cenvNoOrder 0 = (2, []) ∧ (2 : ℕ) ≠ 0 := by decide

/-- C7 (amended): invoking `cancel_order` with no active order (no cancel
button, so both the normal click and the forced JS click fail, and the
follow-up order query finds nothing) never raises, performs no interface
mutation and no reload — but it increments the global cancellation-failure
counter by 2. -/
theorem C7_cancel_no_order_noop (env : CancelEnv) (fails : ℕ)
    (h1 : env.normalSucceeds = false) (h2 : env.forceSucceeds = false)
    (h3 : safeQuery env.orderAfter = false) :
    cancel_order env fails = (fails + 2, []) := by
  simp [cancel_order, h1, h2, h3]

/-- C7 (witness): the amended no-op at failure counter 5. -/
theorem C7_cancel_no_order_noop_witness :
    cancel_order cenvNoOrder 5 = (7, []) :=
  C7_cancel_no_order_noop cenvNoOrder 5 rfl rfl rfl

/-- C8 (counterexample): in the insufficient-funds scenario (quote balance
1.2, deduction 1.5, available −0.3), the attempt aborts — but only after the
BUY tab click, the limit tab click AND the limit-price fill, so interface
mutation calls do occur, contradicting the claim that none occur. -/
theorem C8_insufficient_funds_prior_fill_cex :
    (get_balances buyEnvLow.bal).2 = 6/5 ∧ buyEnvLow.deduction = 3/2 ∧
    trade_limit_buy_asset buyEnvLow 0 =
      (false, 0, [Cmd.clickBuyTab, Cmd.clickLimitTab, Cmd.fillPrice "100.00"]) ∧
    Cmd.fillPrice "100.00" ∈ (trade_limit_buy_asset buyEnvLow 0).2.2 := by decide

/-- C8 (amended): on insufficient funds the BUY attempt resolves aborted and
performs no size fill, no submit and no cancellation — every interface call
it made is a tab click or the limit-price fill, which happen before the
balance check. -/
theorem C8_insufficient_funds_frame (env : BuyEnv) (fails : ℕ)
    (h : (get_balances env.bal).2 - env.deduction ≤ 0) :
    (trade_limit_buy_asset env fails).1 = false ∧
    ∀ c ∈ (trade_limit_buy_asset env fails).2.2,
      c = Cmd.clickBuyTab ∨ c = Cmd.clickLimitTab ∨ ∃ v, c = Cmd.fillPrice v :=
  buy_abort_insufficient env fails h

/-- C8 (witness): the amended frame condition in the concrete scenario. -/
theorem C8_insufficient_funds_frame_witness :
    (trade_limit_buy_asset buyEnvLow 0).1 = false ∧
    ∀ c ∈ (trade_limit_buy_asset buyEnvLow 0).2.2,
      c = Cmd.clickBuyTab ∨ c = Cmd.clickLimitTab ∨ ∃ v, c = Cmd.fillPrice v :=
  C8_insufficient_funds_frame buyEnvLow 0 (by decide)

/-- C9 (counterexample): `safe_query_selector` returns `none` both for a
mid-navigation error and for a genuinely absent order, and the BUY controller
treats the resulting `None` during its first post-submit check as a fill —
an undeterminable state is reported as `Filled`. -/
theorem C9_nav_error_treated_as_fill_cex :
    safe_query_selector OrderQueryObs.navError = none ∧
    safe_query_selector OrderQueryObs.absent = none ∧
    (buyEnvNav.checks 0).orderQuery = OrderQueryObs.navError ∧
    (trade_limit_buy_asset buyEnvNav 0).1 = true := by decide

/-- C9 (amended): `safe_query_selector` tolerates a mid-navigation page
context (it never raises; it returns `none`), but it does NOT report
"unavailable" distinctly from "false": `none` is returned exactly when the
order is not positively present, so a BUY attempt whose first post-submit
order query errors out resolves as a fill. -/
theorem C9_unavailable_conflated (env : BuyEnv) (fails : ℕ) (p : String)
    (hq : get_real_buy_price env.prices = some p) (hp : p ≠ "")
    (hb : 0 < (get_balances env.bal).2 - env.deduction)
    (hchk : (env.checks 0).orderQuery = OrderQueryObs.navError) :
    (∀ q : OrderQueryObs, safe_query_selector q = none ↔ q ≠ OrderQueryObs.present) ∧
    (trade_limit_buy_asset env fails).1 = true := by
  constructor
  · intro q
    cases q <;> simp [safe_query_selector]
  · simp only [trade_limit_buy_asset, hq]
    rw [if_neg hp, if_neg (not_le.mpr hb)]
    unfold buyAfterSizing buyFinish
    rw [buyObserve_first_navError env.checks env.cancelEnv _ fails hchk]

/-- C9 (witness): the conflation on the concrete fixture. -/
theorem C9_unavailable_conflated_witness :
    (trade_limit_buy_asset buyEnvNav 0).1 = true :=
  (C9_unavailable_conflated buyEnvNav 0 "100.00" (by decide) (by decide)
    (by decide) (by decide)).2

/-- C10: balance parsing is total and non-negative: it ignores every
character other than digits and dots, any residue that is not a valid number
parses to 0, and a BUY attempt whose two balance texts both parse to 0 (an
unreadable display) aborts as insufficient funds without submitting. -/
theorem C10_parse_balance_total_safe (s : String) (env : BuyEnv) (fails : ℕ) :
    0 ≤ parse_balance s ∧
    parse_balance s = parse_balance (stripNonNumeric s) ∧
    (floatOfClean (stripNonNumeric s) = none → parse_balance s = 0) ∧
    (parse_balance (pyStrip env.bal.asset0Free) = 0 →
     parse_balance (pyStrip env.bal.asset1Free) = 0 →
     1 ≤ env.deduction →
     (trade_limit_buy_asset env fails).1 = false ∧
     Cmd.clickSubmit ∉ (trade_limit_buy_asset env fails).2.2) := by
  refine ⟨parse_balance_nonneg s, ?_, ?_, ?_⟩
  · unfold parse_balance
    rw [stripNonNumeric_idem]
  · intro h
    unfold parse_balance
    rw [h]
    rfl
  · intro h0 h1 hd
    have husdt : (get_balances env.bal).2 ≤ 0 := by
      unfold get_balances
      by_cases hb : strHasSub (upperStr TRADE_ASSET) (upperStr (pyStrip env.bal.asset0Name)) = true
      · rw [if_pos hb]
        simp [h1]
      · rw [if_neg hb]
        simp [h0]
    have hh := buy_abort_insufficient env fails (by linarith)
    refine ⟨hh.1, ?_⟩
    intro hmem
    rcases hh.2 _ hmem with h1x | h1x | ⟨v, h1x⟩ <;> simp at h1x

/-- C10 (witness): concrete parses and the abort on unreadable balances. -/
theorem C10_parse_balance_witness :
    0 ≤ parse_balance " 1,234.56b " ∧
    parse_balance "x.y.z" = 0 ∧
    (trade_limit_buy_asset buyEnvJunk 0).1 = false := by
  refine ⟨(C10_parse_balance_total_safe " 1,234.56b " buyEnvJunk 0).1, ?_, ?_⟩
  · exact (C10_parse_balance_total_safe "x.y.z" buyEnvJunk 0).2.2.1 (by decide)
  · exact ((C10_parse_balance_total_safe "junk" buyEnvJunk 0).2.2.2
      (by decide) (by decide) (by decide)).1

end Arkham
